import Mathlib

/-
Verification development for the Mailing-App repository
(src/django/mailinglist: models.py, tasks.py, views.py).

The relational store is embedded as explicit lists of records; the Celery
broker as an explicit job queue inside the store.  Every effectful
operation returns the post-state together with an optional error
(mirroring a raised Python exception); all errors here are raised before
any write, so on an error the returned store equals the input store.
-/

namespace Mailinglist

/-- Identifiers: the source uses random UUID4 primary keys; modelled as opaque naturals. -/
abbrev Id := Nat

/-- Errors surfaced by the embedded operations: AttributeError and DoesNotExist are
Python/Django exceptions; duplicateSubscription is the unique-together violation on
Subscriber (the error the spec taxonomy calls DuplicateSubscription); integrityError a
primary-key collision; fkViolation a missing foreign-key target. -/
inductive PyError where
  | attributeError
  | doesNotExist
  | duplicateSubscription
  | integrityError
  | fkViolation
  deriving DecidableEq

/-- The three Celery tasks declared in tasks.py, as job types with their payload id. -/
inductive Job where
  | send_confirmation_email_to_subscriber (id : Id)
  | build_subscriber_messages_for_message (id : Id)
  | send_subscriber_message (id : Id)
  deriving DecidableEq

/-- MailingList (models.py lines 10-39): uuid pk, name, owner reference. -/
structure MailingListRec where
  id : Id
  name : String
  owner : Id
  deriving DecidableEq

/-- Subscriber (models.py lines 54-95): uuid pk, email, confirmed flag defaulting to
false, mailing_list foreign key (on_delete CASCADE). -/
structure SubscriberRec where
  id : Id
  email : String
  confirmed : Bool
  mailing_list : Id
  deriving DecidableEq

/-- Message (models.py lines 98-127): uuid pk, mailing_list foreign key (CASCADE),
subject, body, started and finished timestamps defaulting to null. -/
structure MessageRec where
  id : Id
  mailing_list : Id
  subject : String
  body : String
  started : Option Nat
  finished : Option Nat
  deriving DecidableEq

/-- SubscriberMessage (models.py lines 148-186): uuid pk, message and subscriber
foreign keys (both CASCADE), created timestamp, sent and last_attempt defaulting to
null.  The model declares no Meta, hence no unique constraint on the
message+subscriber pair. -/
structure SubscriberMessageRec where
  id : Id
  message : Id
  subscriber : Id
  created : Nat
  sent : Option Nat
  last_attempt : Option Nat
  deriving DecidableEq

/-- The whole mutable world: the four tables, the Celery queue, and two logs for calls
into the external mail-sender capability (confirmation notifications by subscriber id,
deliveries by recipient email, subject and body). -/
structure Store where
  mailingLists : List MailingListRec
  subscribers : List SubscriberRec
  messages : List MessageRec
  subscriberMessages : List SubscriberMessageRec
  queue : List Job
  confirmationsSent : List Id
  deliveriesSent : List (String × String × String)
  deriving DecidableEq

/-- Celery task submission: .delay appends one job to the broker queue. -/
def enqueue (s : Store) (j : Job) : Store :=
  { s with queue := s.queue ++ [j] }

/-- SubscriberManager.confirmed_subscribers_for_mailing_list (models.py lines 47-51):
filter confirmed = True, then filter mailing_list = the given list. -/
def confirmed_subscribers_for_mailing_list (s : Store) (mailing_list : Id) : List SubscriberRec :=
  (s.subscribers.filter (fun q => q.confirmed)).filter (fun q => q.mailing_list == mailing_list)

/-- True when two records at distinct positions collide on the unique-together
pair email+mailing_list declared in Subscriber.Meta (models.py lines 75-76). -/
def hasDuplicatePair : List SubscriberRec → Bool
  | [] => false
  | x :: xs =>
      xs.any (fun y => y.email == x.email && y.mailing_list == x.mailing_list)
        || hasDuplicatePair xs

/-- True when two records at distinct positions collide on the primary key. -/
def hasDuplicateId : List SubscriberRec → Bool
  | [] => false
  | x :: xs => xs.any (fun y => y.id == x.id) || hasDuplicateId xs

/-- Subscriber.save (models.py lines 78-90) together with the database constraints the
model declares: uuid primary key, unique_together email+mailing_list (Meta, lines
75-76) and the mailing_list foreign key.  isNew models the source expression
self._state.adding or force_insert.  After a successful INSERT, line 89 enqueues
send_confirmation_email_to_subscriber with the subscriber id only when the record is
new and not confirmed; an UPDATE never enqueues. -/
def subscriberSave (s : Store) (sub : SubscriberRec) (isNew : Bool) : Store × Option PyError :=
  if isNew then
    if s.subscribers.any (fun x => x.id == sub.id) then (s, some PyError.integrityError)
    else if s.subscribers.any
        (fun x => x.email == sub.email && x.mailing_list == sub.mailing_list) then
      (s, some PyError.duplicateSubscription)
    else if s.mailingLists.any (fun ml => ml.id == sub.mailing_list) then
      let s1 : Store := { s with subscribers := s.subscribers ++ [sub] }
      if sub.confirmed then (s1, none)
      else (enqueue s1 (Job.send_confirmation_email_to_subscriber sub.id), none)
    else (s, some PyError.fkViolation)
  else
    let subs1 := s.subscribers.map (fun x => if x.id == sub.id then sub else x)
    if hasDuplicatePair subs1 then (s, some PyError.duplicateSubscription)
    else ({ s with subscribers := subs1 }, none)

/-- ConfirmSubscriptionView.get_object (views.py lines 123-127): load the Subscriber
by pk (404 when absent), set confirmed = True and save; the loaded object is not new,
so Subscriber.save takes the update path. -/
def confirmSubscription (s : Store) (subId : Id) : Store × Option PyError :=
  match s.subscribers.find? (fun x => x.id == subId) with
  | none => (s, some PyError.doesNotExist)
  | some sub => subscriberSave s { sub with confirmed := true } false

/-- SubscriberMessage creation through Manager.create, i.e. SubscriberMessage.save on
a new object (models.py lines 171-186): INSERT under the declared constraints (uuid
primary key and the two foreign keys; the model declares no unique constraint on the
message+subscriber pair), then self.send, which - line 186 - enqueues
tasks.send_confirmation_email_to_subscriber with self.id. -/
def subscriberMessageCreate (s : Store) (sm : SubscriberMessageRec) : Store × Option PyError :=
  if s.subscriberMessages.any (fun x => x.id == sm.id) then (s, some PyError.integrityError)
  else if !(s.messages.any (fun m => m.id == sm.message)) then (s, some PyError.fkViolation)
  else if !(s.subscribers.any (fun x => x.id == sm.subscriber)) then (s, some PyError.fkViolation)
  else
    let s1 : Store := { s with subscriberMessages := s.subscriberMessages ++ [sm] }
    (enqueue s1 (Job.send_confirmation_email_to_subscriber sm.id), none)

/-- A fresh primary key for a SubscriberMessage row, standing in for uuid4. -/
def freshSubscriberMessageId (s : Store) : Id :=
  (s.subscriberMessages.map (fun x => x.id)).foldl (fun a b => max a b) 0 + 1

/-- Attribute lookup on Subscriber.objects: SubscriberManager (models.py lines 42-51)
defines exactly one method, confirmed_subscribers_for_mailing_list; any other
attribute access on the manager raises AttributeError. -/
def subscriberManagerLookup (name : String) : Option (Store → Id → List SubscriberRec) :=
  if name == "confirmed_subscribers_for_mailing_list" then
    some confirmed_subscribers_for_mailing_list
  else none

/-- The list comprehension of create_from_message (models.py lines 142-145) applied to
a list of subscribers: one Manager.create per subscriber, stopping at the first
raised error.  The auto_now_add creation instant is abstracted as 0; no claim
mentions the created field. -/
def createSubscriberMessagesFor (msg : MessageRec) (subs : List SubscriberRec)
    (s : Store) : Store × Option PyError :=
  subs.foldl
    (fun acc sub =>
      match acc with
      | (st, some e) => (st, some e)
      | (st, none) =>
          subscriberMessageCreate st
            { id := freshSubscriberMessageId st, message := msg.id, subscriber := sub.id,
              created := 0, sent := none, last_attempt := none })
    (s, none)

/-- SubscriberMessageManager.create_from_message (models.py lines 134-145).  The body
first evaluates Subscriber.objects.send_confirmation_email(message.mailing_list),
lines 140-141; SubscriberManager defines no attribute of that name
(send_confirmation_email is an instance method of Subscriber, models.py line 92, not a
manager method), so the attribute access raises AttributeError before any
SubscriberMessage is created. -/
def create_from_message (s : Store) (msg : MessageRec) : Store × Option PyError :=
  match subscriberManagerLookup "send_confirmation_email" with
  | none => (s, some PyError.attributeError)
  | some f => createSubscriberMessagesFor msg (f s msg.mailing_list) s

/-- tasks.build_subscriber_messages_for_message (tasks.py lines 23-35): fetch the
Message by id (DoesNotExist when absent) and call
SubscriberMessage.objects.create_from_message on it.  The task body touches neither
Message.started nor Message.finished. -/
def build_subscriber_messages_for_message (s : Store) (messageId : Id) : Store × Option PyError :=
  match s.messages.find? (fun m => m.id == messageId) with
  | none => (s, some PyError.doesNotExist)
  | some m => create_from_message s m

/-- Message.save (models.py lines 115-127): INSERT (uuid primary key, mailing_list
foreign key) and, when the record is new, enqueue
build_subscriber_messages_for_message with the message id. -/
def messageSave (s : Store) (m : MessageRec) (isNew : Bool) : Store × Option PyError :=
  if isNew then
    if s.messages.any (fun x => x.id == m.id) then (s, some PyError.integrityError)
    else if s.mailingLists.any (fun ml => ml.id == m.mailing_list) then
      (enqueue { s with messages := s.messages ++ [m] }
        (Job.build_subscriber_messages_for_message m.id), none)
    else (s, some PyError.fkViolation)
  else
    ({ s with messages := s.messages.map (fun x => if x.id == m.id then m else x) }, none)

/-- tasks.send_confirmation_email_to_subscriber (tasks.py lines 7-20): fetch the
Subscriber by the payload id (Subscriber.objects.get raises DoesNotExist when absent)
and send the confirmation email.  Modelled from the spec for the final call:
emails.send_confirmation_email is not under src/; its effect is recorded as one
confirmation notification for the subscriber id. -/
def send_confirmation_email_to_subscriber_task (s : Store) (subscriberId : Id) :
    Store × Option PyError :=
  match s.subscribers.find? (fun x => x.id == subscriberId) with
  | none => (s, some PyError.doesNotExist)
  | some sub => ({ s with confirmationsSent := s.confirmationsSent ++ [sub.id] }, none)

/-- tasks.send_subscriber_message (tasks.py lines 38-45): fetch the SubscriberMessage
by id and send it.  Modelled from the spec for the final call:
emails.send_subscriber_message is not under src/; per the Delivery Dispatcher contract
it loads the record with its Subscriber and Message and invokes the mail sender with
the subscriber email, the message subject and the message body. -/
def send_subscriber_message_task (s : Store) (smId : Id) : Store × Option PyError :=
  match s.subscriberMessages.find? (fun x => x.id == smId) with
  | none => (s, some PyError.doesNotExist)
  | some sm =>
      match s.subscribers.find? (fun x => x.id == sm.subscriber),
            s.messages.find? (fun m => m.id == sm.message) with
      | some sub, some m =>
          ({ s with deliveriesSent := s.deliveriesSent ++ [(sub.email, m.subject, m.body)] }, none)
      | _, _ => (s, some PyError.doesNotExist)

/-- UnsubscribeView (views.py lines 131-145): delete the Subscriber;
SubscriberMessage.subscriber declares on_delete CASCADE (models.py line 164), so its
delivery records are deleted with it. -/
def deleteSubscriber (s : Store) (subId : Id) : Store :=
  { s with
    subscribers := s.subscribers.filter (fun x => !(x.id == subId)),
    subscriberMessages := s.subscriberMessages.filter (fun x => !(x.subscriber == subId)) }

/-- DeleteMailingListView (views.py lines 45-54): deleting a MailingList cascades per
the declared foreign keys: Subscriber.mailing_list (CASCADE, models.py line 72),
Message.mailing_list (CASCADE, line 109), and from those deletions
SubscriberMessage.subscriber / SubscriberMessage.message (CASCADE, lines 163-164). -/
def deleteMailingList (s : Store) (mlId : Id) : Store :=
  let deadSubs := (s.subscribers.filter (fun x => x.mailing_list == mlId)).map (fun x => x.id)
  let deadMsgs := (s.messages.filter (fun m => m.mailing_list == mlId)).map (fun m => m.id)
  { s with
    mailingLists := s.mailingLists.filter (fun ml => !(ml.id == mlId)),
    subscribers := s.subscribers.filter (fun x => !(x.mailing_list == mlId)),
    messages := s.messages.filter (fun m => !(m.mailing_list == mlId)),
    subscriberMessages := s.subscriberMessages.filter
      (fun sm => !(deadSubs.contains sm.subscriber) && !(deadMsgs.contains sm.message)) }

/-- The operations of the system, for reasoning about arbitrary execution traces. -/
inductive Op where
  | createSubscriber (sub : SubscriberRec)
  | confirm (subId : Id)
  | createMessage (m : MessageRec)
  | runBuild (messageId : Id)
  | createDeliveryRecord (sm : SubscriberMessageRec)
  | runConfirmationJob (subId : Id)
  | runDeliveryJob (smId : Id)
  | unsubscribe (subId : Id)
  | deleteList (mlId : Id)

/-- Post-state of one operation (a raised error leaves the store as returned). -/
def applyOp (s : Store) (op : Op) : Store :=
  match op with
  | Op.createSubscriber sub => (subscriberSave s sub true).1
  | Op.confirm subId => (confirmSubscription s subId).1
  | Op.createMessage m => (messageSave s m true).1
  | Op.runBuild messageId => (build_subscriber_messages_for_message s messageId).1
  | Op.createDeliveryRecord sm => (subscriberMessageCreate s sm).1
  | Op.runConfirmationJob subId => (send_confirmation_email_to_subscriber_task s subId).1
  | Op.runDeliveryJob smId => (send_subscriber_message_task s smId).1
  | Op.unsubscribe subId => deleteSubscriber s subId
  | Op.deleteList mlId => deleteMailingList s mlId

/-- Post-state of a sequence of operations. -/
def applyOps (s : Store) (ops : List Op) : Store := ops.foldl applyOp s

/-- Referential integrity of delivery records: every SubscriberMessage references an
existing Subscriber and an existing Message. -/
def refIntact (s : Store) : Prop :=
  ∀ sm ∈ s.subscriberMessages,
    (∃ sub ∈ s.subscribers, sub.id = sm.subscriber) ∧ ∃ m ∈ s.messages, m.id = sm.message

instance (s : Store) : Decidable (refIntact s) := by
  unfold refIntact; infer_instance

/-- An empty store. -/
def emptyStore : Store :=
  { mailingLists := [], subscribers := [], messages := [], subscriberMessages := [],
    queue := [], confirmationsSent := [], deliveriesSent := [] }

/-- Concrete scenario for claim C1: mailing list 1 with one confirmed subscriber and
one message, build job not yet run. -/
def c1Store : Store :=
  { mailingLists := [{ id := 1, name := "listA", owner := 7 }],
    subscribers := [{ id := 10, email := "a@example.org", confirmed := true, mailing_list := 1 }],
    messages := [{ id := 20, mailing_list := 1, subject := "subjA", body := "bodyA",
                   started := none, finished := none }],
    subscriberMessages := [], queue := [], confirmationsSent := [], deliveriesSent := [] }

/-- Concrete scenario for claim C2: one list, one confirmed subscriber, one message. -/
def c2Store : Store :=
  { mailingLists := [{ id := 1, name := "listB", owner := 7 }],
    subscribers := [{ id := 10, email := "b@example.org", confirmed := true, mailing_list := 1 }],
    messages := [{ id := 20, mailing_list := 1, subject := "subjB", body := "bodyB",
                   started := none, finished := none }],
    subscriberMessages := [], queue := [], confirmationsSent := [], deliveriesSent := [] }

/-- First delivery record for the pair message 20 and subscriber 10. -/
def c2sm1 : SubscriberMessageRec :=
  { id := 100, message := 20, subscriber := 10, created := 0, sent := none, last_attempt := none }

/-- Second delivery record for the same pair message 20 and subscriber 10. -/
def c2sm2 : SubscriberMessageRec :=
  { id := 101, message := 20, subscriber := 10, created := 0, sent := none, last_attempt := none }

/-- Concrete scenario for claim C3: one mailing list, no subscribers yet. -/
def c3Store : Store :=
  { mailingLists := [{ id := 1, name := "listC", owner := 7 }],
    subscribers := [], messages := [], subscriberMessages := [],
    queue := [], confirmationsSent := [], deliveriesSent := [] }

/-- A subscriber created with confirmed already true (the confirmed field is writable
on creation through the API SubscriberSerializer). -/
def c3ConfirmedSub : SubscriberRec :=
  { id := 11, email := "c@example.org", confirmed := true, mailing_list := 1 }

/-- An ordinary unconfirmed subscriber for the amended claim C3. -/
def c3PendingSub : SubscriberRec :=
  { id := 12, email := "d@example.org", confirmed := false, mailing_list := 1 }

/-- Concrete scenario for claim C6: a delivery record is about to be created for
message 20 and subscriber 10. -/
def c6Store : Store :=
  { mailingLists := [{ id := 1, name := "listF", owner := 7 }],
    subscribers := [{ id := 10, email := "f@example.org", confirmed := true, mailing_list := 1 }],
    messages := [{ id := 20, mailing_list := 1, subject := "subjF", body := "bodyF",
                   started := none, finished := none }],
    subscriberMessages := [], queue := [], confirmationsSent := [], deliveriesSent := [] }

/-- The delivery record inserted in the claim C6 scenario. -/
def c6sm : SubscriberMessageRec :=
  { id := 100, message := 20, subscriber := 10, created := 0, sent := none, last_attempt := none }

/-- Concrete scenario for claim C7: message 20 on a list with zero confirmed
subscribers; started and finished are null. -/
def c7Store : Store :=
  { mailingLists := [{ id := 1, name := "listG", owner := 7 }],
    subscribers := [],
    messages := [{ id := 20, mailing_list := 1, subject := "subjG", body := "bodyG",
                   started := none, finished := none }],
    subscriberMessages := [], queue := [], confirmationsSent := [], deliveriesSent := [] }

/-- Concrete scenario for claim C5: subscriber 10 is already confirmed. -/
def c5Store : Store :=
  { mailingLists := [{ id := 1, name := "listE", owner := 7 }],
    subscribers := [{ id := 10, email := "e@example.org", confirmed := true, mailing_list := 1 }],
    messages := [], subscriberMessages := [],
    queue := [], confirmationsSent := [], deliveriesSent := [] }

/-- The confirmed subscriber of the claim C5 scenario. -/
def c5Sub : SubscriberRec :=
  { id := 10, email := "e@example.org", confirmed := true, mailing_list := 1 }

/-- Concrete scenario for claims C4 and C10: one mailing list, no subscribers. -/
def c4Store : Store :=
  { mailingLists := [{ id := 1, name := "listD", owner := 7 }],
    subscribers := [], messages := [], subscriberMessages := [],
    queue := [], confirmationsSent := [], deliveriesSent := [] }

/-- First subscriber of the claim C4 scenario. -/
def c4Sub1 : SubscriberRec :=
  { id := 10, email := "dup@example.org", confirmed := false, mailing_list := 1 }

/-- Second subscriber of the claim C4 scenario: same email and list, fresh id. -/
def c4Sub2 : SubscriberRec :=
  { id := 11, email := "dup@example.org", confirmed := false, mailing_list := 1 }

/-- Unconfirmed subscriber for the claim C10 witness. -/
def c10Sub : SubscriberRec :=
  { id := 12, email := "ten@example.org", confirmed := false, mailing_list := 1 }

/-- Concrete scenario for claim C9: two mailing lists, each with a subscriber, a
message and a delivery record. -/
def c9Store : Store :=
  { mailingLists := [{ id := 1, name := "listH", owner := 7 },
                     { id := 2, name := "listI", owner := 7 }],
    subscribers := [{ id := 10, email := "h@example.org", confirmed := true, mailing_list := 1 },
                    { id := 11, email := "i@example.org", confirmed := true, mailing_list := 2 }],
    messages := [{ id := 20, mailing_list := 1, subject := "subjH", body := "bodyH",
                   started := none, finished := none },
                 { id := 21, mailing_list := 2, subject := "subjI", body := "bodyI",
                   started := none, finished := none }],
    subscriberMessages := [{ id := 100, message := 20, subscriber := 10, created := 0,
                             sent := none, last_attempt := none },
                           { id := 101, message := 21, subscriber := 11, created := 0,
                             sent := none, last_attempt := none }],
    queue := [], confirmationsSent := [], deliveriesSent := [] }

/-- Outcome of one call to the external mail-sender capability. -/
inductive SendOutcome where
  | success
  | transientError
  | permanentError
  deriving DecidableEq

/-- Derived status of a delivery record per the spec status query. -/
inductive DeliveryStatus where
  | pending
  | sentOk
  | failed
  deriving DecidableEq

/-- The delivery-relevant fields of one DeliveryRecord, together with the attempt
counter kept by the retry layer. -/
structure DeliveryState where
  sent : Option Nat
  last_attempt : Option Nat
  attempts : Nat
  deriving DecidableEq

/-- A DeliveryRecord before any attempt: sent and last_attempt null. -/
def initialDelivery : DeliveryState :=
  { sent := none, last_attempt := none, attempts := 0 }

/-- Modelled from the spec: the Delivery Dispatcher per-attempt update (the dispatch
code, emails.send_subscriber_message and the retry policy, is not under src/).  On
success set sent and last_attempt to now; on a transient failure set last_attempt and
count the attempt; on a permanent failure no retry occurs, the record goes straight to
the exhausted state. -/
def attemptDelivery (maxAttempts : Nat) (d : DeliveryState) (o : SendOutcome) (now : Nat) :
    DeliveryState :=
  match o with
  | SendOutcome.success =>
      { d with sent := some now, last_attempt := some now, attempts := d.attempts + 1 }
  | SendOutcome.transientError =>
      { d with last_attempt := some now, attempts := d.attempts + 1 }
  | SendOutcome.permanentError =>
      { d with last_attempt := some now, attempts := maxAttempts }

/-- Modelled from the spec: the derived status query - pending when sent is null and
attempts are below the maximum, sentOk when the sent timestamp is set, failed when
sent is null and the retry budget is exhausted. -/
def statusOf (maxAttempts : Nat) (d : DeliveryState) : DeliveryStatus :=
  if d.sent.isSome then DeliveryStatus.sentOk
  else if d.attempts < maxAttempts then DeliveryStatus.pending
  else DeliveryStatus.failed

/-- Modelled from the spec: the retry loop - outcomes are consumed one per attempt
while the record is not terminal (not sent, retry budget not exhausted). -/
def runDelivery (maxAttempts : Nat) (d : DeliveryState) :
    List (SendOutcome × Nat) → DeliveryState
  | [] => d
  | (o, t) :: rest =>
      if d.sent.isSome || maxAttempts ≤ d.attempts then d
      else runDelivery maxAttempts (attemptDelivery maxAttempts d o t) rest

/-- Claim C1: the fan-out build job for a Message whose list has N confirmed
subscribers creates exactly N DeliveryRecords with distinct subscribers.  Code
evaluation at the failing input: mailing list 1 has exactly one confirmed subscriber,
yet running the build job for message 20 raises AttributeError (the body of
create_from_message accesses Subscriber.objects.send_confirmation_email, an attribute
SubscriberManager does not define) and creates zero SubscriberMessages, leaving the
store unchanged. -/
theorem C1_build_job_raises_and_creates_no_records :
    (confirmed_subscribers_for_mailing_list c1Store 1).length = 1
  ∧ build_subscriber_messages_for_message c1Store 20 = (c1Store, some PyError.attributeError)
  ∧ (build_subscriber_messages_for_message c1Store 20).1.subscriberMessages.length = 0 := by
  decide

/-- Claim C2, counterexample: two inserts of DeliveryRecords for the same pair
(message 20, subscriber 10) both succeed - the second is not rejected by any unique
constraint - so the store ends with two records for the pair, contradicting the
at-most-one invariant as stated. -/
theorem C2_counterexample_duplicate_pair_created :
    (subscriberMessageCreate c2Store c2sm1).2 = none
  ∧ (subscriberMessageCreate (subscriberMessageCreate c2Store c2sm1).1 c2sm2).2 = none
  ∧ ((subscriberMessageCreate (subscriberMessageCreate c2Store c2sm1).1 c2sm2).1.subscriberMessages.filter
        (fun x => x.message == 20 && x.subscriber == 10)).length = 2 := by
  decide

/-- Claim C3, counterexample: inserting a Subscriber whose confirmed flag is already
true succeeds and enqueues no job at all, contradicting the claim that exactly one
confirmation job is enqueued regardless of the field values. -/
theorem C3_counterexample_confirmed_creation_enqueues_nothing :
    (subscriberSave c3Store c3ConfirmedSub true).2 = none
  ∧ (subscriberSave c3Store c3ConfirmedSub true).1.queue = [] := by
  decide

/-- Claim C6: creating a DeliveryRecord is expected to enqueue a message-delivery job
with the record id.  Code evaluation at the failing input: the insert instead enqueues
the confirmation-notification job send_confirmation_email_to_subscriber carrying the
SubscriberMessage id 100 (models.py line 186); running that handler fails with
DoesNotExist because no Subscriber has id 100, while the intended handler
send_subscriber_message would succeed and invoke the mail sender with the subscriber
email, message subject and message body. -/
theorem C6_wrong_job_type_enqueued :
    (subscriberMessageCreate c6Store c6sm).1.queue = [Job.send_confirmation_email_to_subscriber 100]
  ∧ (subscriberMessageCreate c6Store c6sm).1.queue ≠ [Job.send_subscriber_message 100]
  ∧ (send_confirmation_email_to_subscriber_task (subscriberMessageCreate c6Store c6sm).1 100).2
      = some PyError.doesNotExist
  ∧ (send_subscriber_message_task (subscriberMessageCreate c6Store c6sm).1 100).2 = none
  ∧ (send_subscriber_message_task (subscriberMessageCreate c6Store c6sm).1 100).1.deliveriesSent
      = [("f@example.org", "subjF", "bodyF")] := by
  decide

/-- Claim C7, counterexample: mailing list 1 has zero confirmed subscribers, so by the
claim the build job should set the finished timestamp of message 20 immediately; but
after running the build job both started and finished are still null. -/
theorem C7_counterexample_timestamps_stay_null :
    (confirmed_subscribers_for_mailing_list c7Store 1).length = 0
  ∧ ((build_subscriber_messages_for_message c7Store 20).1.messages.map
        (fun m => (m.started, m.finished))) = [((none : Option Nat), (none : Option Nat))] := by
  decide

/-- Characterization of a successful Subscriber INSERT: the row is appended, no
existing row shared the unique pair, the confirmation job is enqueued exactly when the
new row is unconfirmed, and the other tables are untouched. -/
theorem subscriberSave_insert_ok {s : Store} {sub : SubscriberRec} {s1 : Store}
    (h : subscriberSave s sub true = (s1, none)) :
    s1.subscribers = s.subscribers ++ [sub]
  ∧ s.subscribers.any
      (fun x => x.email == sub.email && x.mailing_list == sub.mailing_list) = false
  ∧ s1.queue = (if sub.confirmed then s.queue
      else s.queue ++ [Job.send_confirmation_email_to_subscriber sub.id])
  ∧ s1.messages = s.messages
  ∧ s1.subscriberMessages = s.subscriberMessages := by
  cases hpk : s.subscribers.any (fun x => x.id == sub.id) with
  | true => simp [subscriberSave, hpk] at h
  | false =>
    cases hpair : s.subscribers.any
        (fun x => x.email == sub.email && x.mailing_list == sub.mailing_list) with
    | true => simp [subscriberSave, hpk, hpair] at h
    | false =>
      cases hml : s.mailingLists.any (fun ml => ml.id == sub.mailing_list) with
      | false => simp [subscriberSave, hpk, hpair, hml] at h
      | true =>
        cases hc : sub.confirmed with
        | true =>
          simp [subscriberSave, hpk, hpair, hml, hc] at h
          subst h
          simp [hc]
        | false =>
          simp [subscriberSave, hpk, hpair, hml, hc, enqueue] at h
          subst h
          simp [hc, enqueue]

/-- Characterization of a successful SubscriberMessage INSERT: the row is appended,
both references existed, the tables of subscribers and messages are untouched, and
the job of models.py line 186 is enqueued. -/
theorem subscriberMessageCreate_ok {s : Store} {sm : SubscriberMessageRec} {s1 : Store}
    (h : subscriberMessageCreate s sm = (s1, none)) :
    s1.subscriberMessages = s.subscriberMessages ++ [sm]
  ∧ s1.messages = s.messages
  ∧ s1.subscribers = s.subscribers
  ∧ s.messages.any (fun m => m.id == sm.message) = true
  ∧ s.subscribers.any (fun x => x.id == sm.subscriber) = true
  ∧ s1.queue = s.queue ++ [Job.send_confirmation_email_to_subscriber sm.id] := by
  cases hid : s.subscriberMessages.any (fun x => x.id == sm.id) with
  | true => simp [subscriberMessageCreate, hid] at h
  | false =>
    cases hmsg : s.messages.any (fun m => m.id == sm.message) with
    | false => simp [subscriberMessageCreate, hid, hmsg] at h
    | true =>
      cases hsub : s.subscribers.any (fun x => x.id == sm.subscriber) with
      | false => simp [subscriberMessageCreate, hid, hmsg, hsub] at h
      | true =>
        simp [subscriberMessageCreate, hid, hmsg, hsub, enqueue] at h
        subst h
        simp [enqueue]

/-- A Subscriber INSERT whose primary key is fresh but whose email and mailing list
collide with an existing row fails with the DuplicateSubscription error and leaves
the store unchanged. -/
theorem subscriberSave_insert_dup (s : Store) (sub : SubscriberRec)
    (hpk : s.subscribers.any (fun x => x.id == sub.id) = false)
    (hpair : s.subscribers.any
      (fun x => x.email == sub.email && x.mailing_list == sub.mailing_list) = true) :
    subscriberSave s sub true = (s, some PyError.duplicateSubscription) := by
  unfold subscriberSave
  rw [hpk, hpair]
  rfl

/-- A SubscriberMessage INSERT with a fresh primary key and existing references
succeeds, appending the row and enqueueing the job of models.py line 186. -/
theorem subscriberMessageCreate_ok_of (s : Store) (sm : SubscriberMessageRec)
    (hid : s.subscriberMessages.any (fun x => x.id == sm.id) = false)
    (hmsg : s.messages.any (fun m => m.id == sm.message) = true)
    (hsub : s.subscribers.any (fun x => x.id == sm.subscriber) = true) :
    subscriberMessageCreate s sm
      = ({ s with
            subscriberMessages := s.subscriberMessages ++ [sm],
            queue := s.queue ++ [Job.send_confirmation_email_to_subscriber sm.id] }, none) := by
  unfold subscriberMessageCreate
  rw [hid, hmsg, hsub]
  rfl

/-- In a table without duplicate primary keys, two members with the same id are the
same record. -/
theorem no_dup_id_inj {l : List SubscriberRec} (h : hasDuplicateId l = false) :
    ∀ x ∈ l, ∀ y ∈ l, x.id = y.id → x = y := by
  induction l with
  | nil => intro x hx; cases hx
  | cons a xs ih =>
    rw [hasDuplicateId, Bool.or_eq_false_iff] at h
    have hnot : ∀ y ∈ xs, y.id ≠ a.id := by
      intro y hy hid
      have : xs.any (fun y => y.id == a.id) = true :=
        List.any_eq_true.mpr ⟨y, hy, by simp [hid]⟩
      rw [h.1] at this
      cases this
    intro x hx y hy hxy
    rcases List.mem_cons.mp hx with hxa | hxs
    · rcases List.mem_cons.mp hy with hya | hys
      · rw [hxa, hya]
      · subst hxa
        exact absurd hxy.symm (hnot y hys)
    · rcases List.mem_cons.mp hy with hya | hys
      · subst hya
        exact absurd hxy (hnot x hxs)
      · exact ih h.2 x hxs y hys hxy

/-- Claim C4: creating a second Subscriber with the same email and mailing list as an
already inserted one fails with the DuplicateSubscription error (the unique_together
violation), leaves the store unchanged, and exactly one Subscriber with that pair
remains. -/
theorem C4_second_subscription_rejected (s s1 : Store) (sub1 sub2 : SubscriberRec)
    (h1 : subscriberSave s sub1 true = (s1, none))
    (hfresh : s1.subscribers.any (fun x => x.id == sub2.id) = false)
    (he : sub2.email = sub1.email) (hml : sub2.mailing_list = sub1.mailing_list) :
    subscriberSave s1 sub2 true = (s1, some PyError.duplicateSubscription)
  ∧ (s1.subscribers.filter
      (fun x => x.email == sub1.email && x.mailing_list == sub1.mailing_list)).length = 1 := by
  obtain ⟨hsubs, hpair, -⟩ := subscriberSave_insert_ok h1
  have hfilter :
      s.subscribers.filter
        (fun x => x.email == sub1.email && x.mailing_list == sub1.mailing_list) = [] := by
    rw [List.filter_eq_nil_iff]
    intro a ha
    intro hcontra
    have : s.subscribers.any
        (fun x => x.email == sub1.email && x.mailing_list == sub1.mailing_list) = true :=
      List.any_eq_true.mpr ⟨a, ha, hcontra⟩
    rw [hpair] at this
    cases this
  constructor
  · have hpair2 : s1.subscribers.any
        (fun x => x.email == sub2.email && x.mailing_list == sub2.mailing_list) = true := by
      rw [hsubs, he, hml, List.any_append]
      simp
    exact subscriberSave_insert_dup s1 sub2 hfresh hpair2
  · rw [hsubs, List.filter_append, hfilter]
    simp

/-- Claim C4 witness at a concrete input. -/
theorem C4_second_subscription_rejected_witness :
    subscriberSave (subscriberSave c4Store c4Sub1 true).1 c4Sub2 true
      = ((subscriberSave c4Store c4Sub1 true).1, some PyError.duplicateSubscription)
  ∧ ((subscriberSave c4Store c4Sub1 true).1.subscribers.filter
      (fun x => x.email == c4Sub1.email && x.mailing_list == c4Sub1.mailing_list)).length = 1 :=
  C4_second_subscription_rejected c4Store (subscriberSave c4Store c4Sub1 true).1 c4Sub1 c4Sub2
    (by decide) (by decide) rfl rfl

/-- Claim C5: confirming an already confirmed Subscriber is idempotent - in a
well-formed store (no duplicate primary keys, unique pair constraint holding) the
confirm action returns the store unchanged and raises no error; since the store is
unchanged, no job is enqueued either. -/
theorem C5_reconfirm_idempotent (s : Store) (subId : Id) (sub : SubscriberRec)
    (hfind : s.subscribers.find? (fun x => x.id == subId) = some sub)
    (hconf : sub.confirmed = true)
    (hids : hasDuplicateId s.subscribers = false)
    (hpairs : hasDuplicatePair s.subscribers = false) :
    confirmSubscription s subId = (s, none) := by
  have hmem : sub ∈ s.subscribers := List.mem_of_find?_eq_some hfind
  have hsubeq : ({ sub with confirmed := true } : SubscriberRec) = sub := by
    cases sub
    simp_all
  have hmap : s.subscribers.map (fun x => if x.id == sub.id then sub else x)
      = s.subscribers := by
    have hcongr : ∀ x ∈ s.subscribers, (if x.id == sub.id then sub else x) = id x := by
      intro x hx
      by_cases hxid : (x.id == sub.id) = true
      · have hxeq : x = sub := no_dup_id_inj hids x hx sub hmem (by simpa using hxid)
        simp [hxid, hxeq]
      · simp [hxid]
    rw [List.map_congr_left hcongr, List.map_id]
  have hstep : confirmSubscription s subId
      = subscriberSave s { sub with confirmed := true } false := by
    unfold confirmSubscription
    rw [hfind]
  have hupdate : subscriberSave s sub false
      = (if hasDuplicatePair (s.subscribers.map (fun x => if x.id == sub.id then sub else x))
         then (s, some PyError.duplicateSubscription)
         else ({ s with subscribers :=
            s.subscribers.map (fun x => if x.id == sub.id then sub else x) }, none)) := rfl
  rw [hstep, hsubeq, hupdate, hmap, hpairs]
  rfl

/-- Claim C5 witness at a concrete input. -/
theorem C5_reconfirm_idempotent_witness : confirmSubscription c5Store 10 = (c5Store, none) :=
  C5_reconfirm_idempotent c5Store 10 c5Sub (by decide) (by decide) (by decide) (by decide)

/-- Claim C3 as amended: on a successful Subscriber INSERT, exactly one confirmation
job carrying the subscriber id is enqueued when the subscriber is created unconfirmed,
and no job is enqueued when it is created with confirmed already true. -/
theorem C3_amended_confirmation_job_iff_unconfirmed (s : Store) (sub : SubscriberRec)
    (hok : (subscriberSave s sub true).2 = none) :
    (subscriberSave s sub true).1.queue =
      (if sub.confirmed then s.queue
       else s.queue ++ [Job.send_confirmation_email_to_subscriber sub.id]) := by
  have h : subscriberSave s sub true = ((subscriberSave s sub true).1, none) := by
    rw [← hok]
  exact (subscriberSave_insert_ok h).2.2.1

/-- Claim C3 amended witness at a concrete input. -/
theorem C3_amended_confirmation_job_iff_unconfirmed_witness :
    (subscriberSave c3Store c3PendingSub true).1.queue =
      (if c3PendingSub.confirmed then c3Store.queue
       else c3Store.queue ++ [Job.send_confirmation_email_to_subscriber c3PendingSub.id]) :=
  C3_amended_confirmation_job_iff_unconfirmed c3Store c3PendingSub (by decide)

/-- Claim C10: saving an already persisted Subscriber (an update) never enqueues the
confirmation job whatever the fields; on an INSERT of an already-confirmed subscriber
nothing is enqueued either; the job is enqueued exactly on the successful INSERT of an
unconfirmed subscriber. -/
theorem C10_update_never_enqueues (s : Store) (sub : SubscriberRec) :
    (subscriberSave s sub false).1.queue = s.queue
  ∧ (sub.confirmed = true → (subscriberSave s sub true).1.queue = s.queue)
  ∧ (sub.confirmed = false → (subscriberSave s sub true).2 = none →
      (subscriberSave s sub true).1.queue
        = s.queue ++ [Job.send_confirmation_email_to_subscriber sub.id]) := by
  refine ⟨?_, ?_, ?_⟩
  · have hupdate : subscriberSave s sub false
        = (if hasDuplicatePair (s.subscribers.map (fun x => if x.id == sub.id then sub else x))
           then (s, some PyError.duplicateSubscription)
           else ({ s with subscribers :=
              s.subscribers.map (fun x => if x.id == sub.id then sub else x) }, none)) := rfl
    rw [hupdate]
    split
    · rfl
    · rfl
  · intro hc
    cases hpk : s.subscribers.any (fun x => x.id == sub.id) with
    | true => simp [subscriberSave, hpk]
    | false =>
      cases hpair : s.subscribers.any
          (fun x => x.email == sub.email && x.mailing_list == sub.mailing_list) with
      | true => simp [subscriberSave, hpk, hpair]
      | false =>
        cases hml : s.mailingLists.any (fun ml => ml.id == sub.mailing_list) with
        | false => simp [subscriberSave, hpk, hpair, hml]
        | true => simp [subscriberSave, hpk, hpair, hml, hc]
  · intro hc hok
    have h : subscriberSave s sub true = ((subscriberSave s sub true).1, none) := by
      rw [← hok]
    have := (subscriberSave_insert_ok h).2.2.1
    rw [this, hc]
    simp

/-- Claim C10 witness at a concrete input. -/
theorem C10_update_never_enqueues_witness :
    (subscriberSave c4Store c10Sub false).1.queue = c4Store.queue
  ∧ (subscriberSave c4Store c10Sub true).1.queue
      = c4Store.queue ++ [Job.send_confirmation_email_to_subscriber c10Sub.id] :=
  ⟨(C10_update_never_enqueues c4Store c10Sub).1,
   (C10_update_never_enqueues c4Store c10Sub).2.2 (by decide) (by decide)⟩

/-- Claim C2 as amended: the SubscriberMessage model declares no unique constraint on
the message and subscriber pair, so a second insert for an already-processed pair is
not rejected: whenever its primary key is fresh it succeeds and adds one more record
for the very same pair. -/
theorem C2_amended_second_insert_not_rejected (s s1 : Store)
    (sm1 sm2 : SubscriberMessageRec)
    (h1 : subscriberMessageCreate s sm1 = (s1, none))
    (hid : s1.subscriberMessages.any (fun x => x.id == sm2.id) = false)
    (hm : sm2.message = sm1.message) (hsub : sm2.subscriber = sm1.subscriber) :
    (subscriberMessageCreate s1 sm2).2 = none
  ∧ ((subscriberMessageCreate s1 sm2).1.subscriberMessages.filter
        (fun x => x.message == sm1.message && x.subscriber == sm1.subscriber)).length
      = (s1.subscriberMessages.filter
          (fun x => x.message == sm1.message && x.subscriber == sm1.subscriber)).length + 1 := by
  obtain ⟨hsms, hmsgs, hsubs, hmany, hsany, hqueue⟩ := subscriberMessageCreate_ok h1
  have hmany2 : s1.messages.any (fun m => m.id == sm2.message) = true := by
    rw [hmsgs, hm]; exact hmany
  have hsany2 : s1.subscribers.any (fun x => x.id == sm2.subscriber) = true := by
    rw [hsubs, hsub]; exact hsany
  rw [subscriberMessageCreate_ok_of s1 sm2 hid hmany2 hsany2]
  constructor
  · rfl
  · simp [List.filter_append, hm, hsub]

/-- Claim C2 amended witness at a concrete input. -/
theorem C2_amended_second_insert_not_rejected_witness :
    (subscriberMessageCreate (subscriberMessageCreate c2Store c2sm1).1 c2sm2).2 = none
  ∧ ((subscriberMessageCreate (subscriberMessageCreate c2Store c2sm1).1 c2sm2).1.subscriberMessages.filter
        (fun x => x.message == c2sm1.message && x.subscriber == c2sm1.subscriber)).length
      = ((subscriberMessageCreate c2Store c2sm1).1.subscriberMessages.filter
          (fun x => x.message == c2sm1.message && x.subscriber == c2sm1.subscriber)).length + 1 :=
  C2_amended_second_insert_not_rejected c2Store (subscriberMessageCreate c2Store c2sm1).1
    c2sm1 c2sm2 (by decide) (by decide) rfl rfl

/-- Claim C7 as amended: the build job build_subscriber_messages_for_message never
modifies the store at all - in particular it never sets the started or finished
timestamp of any Message; both remain at their default null. -/
theorem C7_amended_build_job_changes_nothing (s : Store) (messageId : Id) :
    (build_subscriber_messages_for_message s messageId).1 = s := by
  cases hf : s.messages.find? (fun m => m.id == messageId) with
  | none => simp [build_subscriber_messages_for_message, hf]
  | some m =>
      simp [build_subscriber_messages_for_message, hf, create_from_message,
        subscriberManagerLookup]

/-- The retry loop never drives the attempt counter past the configured maximum. -/
theorem runDelivery_attempts_le (maxAttempts : Nat) (outs : List (SendOutcome × Nat)) :
    ∀ d : DeliveryState, d.attempts ≤ maxAttempts →
      (runDelivery maxAttempts d outs).attempts ≤ maxAttempts := by
  induction outs with
  | nil => intro d h; exact h
  | cons p rest ih =>
    intro d h
    obtain ⟨o, t⟩ := p
    rw [runDelivery]
    split
    · exact h
    · rename_i hterm
      apply ih
      simp only [Bool.or_eq_true, decide_eq_true_eq, not_or] at hterm
      cases o
      · simp only [attemptDelivery]
        omega
      · simp only [attemptDelivery]
        omega
      · simp only [attemptDelivery]
        omega

/-- Claim C8 (dispatcher modelled from the spec, the sending code being absent from
src/): after an attempt on an unsent record, the sent timestamp is set if and only if
that attempt succeeded; a successful attempt at time t sets both sent and
last_attempt to t; and any run from the initial record that ends in derived status
failed has attempt count exactly the configured maximum and sent still null. -/
theorem C8_sent_iff_last_attempt_success (maxAttempts : Nat) (d : DeliveryState)
    (o : SendOutcome) (t : Nat) (outs : List (SendOutcome × Nat)) (hs : d.sent = none) :
    ((attemptDelivery maxAttempts d o t).sent.isSome = true ↔ o = SendOutcome.success)
  ∧ (o = SendOutcome.success →
      (attemptDelivery maxAttempts d o t).sent = some t
    ∧ (attemptDelivery maxAttempts d o t).last_attempt = some t)
  ∧ (statusOf maxAttempts (runDelivery maxAttempts initialDelivery outs)
        = DeliveryStatus.failed →
      (runDelivery maxAttempts initialDelivery outs).attempts = maxAttempts
    ∧ (runDelivery maxAttempts initialDelivery outs).sent = none) := by
  refine ⟨?_, ?_, ?_⟩
  · cases o <;> simp [attemptDelivery, hs]
  · intro ho
    subst ho
    simp [attemptDelivery]
  · intro hfail
    have hle : (runDelivery maxAttempts initialDelivery outs).attempts ≤ maxAttempts :=
      runDelivery_attempts_le maxAttempts outs initialDelivery (Nat.zero_le _)
    unfold statusOf at hfail
    split at hfail
    · simp at hfail
    · split at hfail
      · simp at hfail
      · rename_i hsome hlt
        refine ⟨by omega, ?_⟩
        cases hsent : (runDelivery maxAttempts initialDelivery outs).sent with
        | none => rfl
        | some v =>
          rw [hsent] at hsome
          simp at hsome

/-- Claim C8 witness at a concrete input. -/
theorem C8_sent_iff_last_attempt_success_witness :
    ((attemptDelivery 3 initialDelivery SendOutcome.success 5).sent.isSome = true
        ↔ SendOutcome.success = SendOutcome.success)
  ∧ (SendOutcome.success = SendOutcome.success →
      (attemptDelivery 3 initialDelivery SendOutcome.success 5).sent = some 5
    ∧ (attemptDelivery 3 initialDelivery SendOutcome.success 5).last_attempt = some 5)
  ∧ (statusOf 3 (runDelivery 3 initialDelivery
        [(SendOutcome.transientError, 1), (SendOutcome.success, 2)]) = DeliveryStatus.failed →
      (runDelivery 3 initialDelivery
        [(SendOutcome.transientError, 1), (SendOutcome.success, 2)]).attempts = 3
    ∧ (runDelivery 3 initialDelivery
        [(SendOutcome.transientError, 1), (SendOutcome.success, 2)]).sent = none) :=
  C8_sent_iff_last_attempt_success 3 initialDelivery SendOutcome.success 5
    [(SendOutcome.transientError, 1), (SendOutcome.success, 2)] rfl

/-- The build job leaves the store untouched: it either fails to find the Message or
raises AttributeError inside create_from_message before any write. -/
theorem build_fst (s : Store) (messageId : Id) :
    (build_subscriber_messages_for_message s messageId).1 = s := by
  cases hf : s.messages.find? (fun m => m.id == messageId) with
  | none => simp [build_subscriber_messages_for_message, hf]
  | some m =>
      simp [build_subscriber_messages_for_message, hf, create_from_message,
        subscriberManagerLookup]

/-- The possible post-states of Subscriber.save: unchanged on error, the row appended
on INSERT, or a primary-key-preserving row replacement on UPDATE. -/
theorem subscriberSave_fst (s : Store) (sub : SubscriberRec) (isNew : Bool) :
    (subscriberSave s sub isNew).1 = s
  ∨ (∃ q, (subscriberSave s sub isNew).1
      = { s with subscribers := s.subscribers ++ [sub], queue := q })
  ∨ (subscriberSave s sub isNew).1
      = { s with subscribers :=
            s.subscribers.map (fun x => if x.id == sub.id then sub else x) } := by
  cases isNew with
  | false =>
    have hupdate : subscriberSave s sub false
        = (if hasDuplicatePair (s.subscribers.map (fun x => if x.id == sub.id then sub else x))
           then (s, some PyError.duplicateSubscription)
           else ({ s with subscribers :=
              s.subscribers.map (fun x => if x.id == sub.id then sub else x) }, none)) := rfl
    rw [hupdate]
    split
    · exact Or.inl rfl
    · exact Or.inr (Or.inr rfl)
  | true =>
    cases hpk : s.subscribers.any (fun x => x.id == sub.id) with
    | true =>
      have hres : subscriberSave s sub true = (s, some PyError.integrityError) := by
        unfold subscriberSave
        rw [hpk]
        rfl
      rw [hres]
      exact Or.inl rfl
    | false =>
      cases hpair : s.subscribers.any
          (fun x => x.email == sub.email && x.mailing_list == sub.mailing_list) with
      | true =>
        rw [subscriberSave_insert_dup s sub hpk hpair]
        exact Or.inl rfl
      | false =>
        cases hml : s.mailingLists.any (fun ml => ml.id == sub.mailing_list) with
        | false =>
          have hres : subscriberSave s sub true = (s, some PyError.fkViolation) := by
            unfold subscriberSave
            rw [hpk, hpair, hml]
            rfl
          rw [hres]
          exact Or.inl rfl
        | true =>
          cases hc : sub.confirmed with
          | true =>
            have hres : subscriberSave s sub true
                = ({ s with subscribers := s.subscribers ++ [sub] }, none) := by
              unfold subscriberSave
              rw [hpk, hpair, hml, hc]
              rfl
            rw [hres]
            exact Or.inr (Or.inl ⟨s.queue, rfl⟩)
          | false =>
            have hres : subscriberSave s sub true
                = (enqueue { s with subscribers := s.subscribers ++ [sub] }
                    (Job.send_confirmation_email_to_subscriber sub.id), none) := by
              unfold subscriberSave
              rw [hpk, hpair, hml, hc]
              rfl
            rw [hres]
            exact Or.inr
              (Or.inl ⟨s.queue ++ [Job.send_confirmation_email_to_subscriber sub.id], rfl⟩)

/-- The possible post-states of Message.save: unchanged on error, the row appended on
INSERT, or a primary-key-preserving row replacement on UPDATE. -/
theorem messageSave_fst (s : Store) (m : MessageRec) (isNew : Bool) :
    (messageSave s m isNew).1 = s
  ∨ (∃ q, (messageSave s m isNew).1 = { s with messages := s.messages ++ [m], queue := q })
  ∨ (messageSave s m isNew).1
      = { s with messages := s.messages.map (fun x => if x.id == m.id then m else x) } := by
  cases isNew with
  | false => exact Or.inr (Or.inr rfl)
  | true =>
    cases hpk : s.messages.any (fun x => x.id == m.id) with
    | true =>
      have hres : messageSave s m true = (s, some PyError.integrityError) := by
        unfold messageSave
        rw [hpk]
        rfl
      rw [hres]
      exact Or.inl rfl
    | false =>
      cases hml : s.mailingLists.any (fun ml => ml.id == m.mailing_list) with
      | false =>
        have hres : messageSave s m true = (s, some PyError.fkViolation) := by
          unfold messageSave
          rw [hpk, hml]
          rfl
        rw [hres]
        exact Or.inl rfl
      | true =>
        have hres : messageSave s m true
            = (enqueue { s with messages := s.messages ++ [m] }
                (Job.build_subscriber_messages_for_message m.id), none) := by
          unfold messageSave
          rw [hpk, hml]
          rfl
        rw [hres]
        exact Or.inr
          (Or.inl ⟨s.queue ++ [Job.build_subscriber_messages_for_message m.id], rfl⟩)

/-- The possible post-states of a SubscriberMessage INSERT: unchanged on error, or
the row appended with both references present in the store. -/
theorem subscriberMessageCreate_fst (s : Store) (sm : SubscriberMessageRec) :
    (subscriberMessageCreate s sm).1 = s
  ∨ ((subscriberMessageCreate s sm).1
      = { s with
            subscriberMessages := s.subscriberMessages ++ [sm],
            queue := s.queue ++ [Job.send_confirmation_email_to_subscriber sm.id] }
    ∧ s.messages.any (fun m => m.id == sm.message) = true
    ∧ s.subscribers.any (fun x => x.id == sm.subscriber) = true) := by
  cases hid : s.subscriberMessages.any (fun x => x.id == sm.id) with
  | true =>
    have hres : subscriberMessageCreate s sm = (s, some PyError.integrityError) := by
      unfold subscriberMessageCreate
      rw [hid]
      rfl
    rw [hres]
    exact Or.inl rfl
  | false =>
    cases hmsg : s.messages.any (fun m => m.id == sm.message) with
    | false =>
      have hres : subscriberMessageCreate s sm = (s, some PyError.fkViolation) := by
        unfold subscriberMessageCreate
        rw [hid, hmsg]
        rfl
      rw [hres]
      exact Or.inl rfl
    | true =>
      cases hsub : s.subscribers.any (fun x => x.id == sm.subscriber) with
      | false =>
        have hres : subscriberMessageCreate s sm = (s, some PyError.fkViolation) := by
          unfold subscriberMessageCreate
          rw [hid, hmsg, hsub]
          rfl
        rw [hres]
        exact Or.inl rfl
      | true =>
        rw [subscriberMessageCreate_ok_of s sm hid hmsg hsub]
        exact Or.inr ⟨rfl, rfl, rfl⟩

/-- Monotonicity of referential integrity: if delivery records are unchanged and
every referenced id keeps a witness in the new tables, integrity is preserved. -/
theorem refIntact_of_tables (s s2 : Store)
    (hsm : s2.subscriberMessages = s.subscriberMessages)
    (hsubs : ∀ i, (∃ x ∈ s.subscribers, x.id = i) → ∃ x ∈ s2.subscribers, x.id = i)
    (hmsgs : ∀ i, (∃ m ∈ s.messages, m.id = i) → ∃ m ∈ s2.messages, m.id = i)
    (h : refIntact s) : refIntact s2 := by
  intro sm hsm2
  rw [hsm] at hsm2
  obtain ⟨ha, hb⟩ := h sm hsm2
  exact ⟨hsubs _ ha, hmsgs _ hb⟩

/-- A witness by id survives appending a row to the subscriber table. -/
theorem subscribers_witness_append (l : List SubscriberRec) (sub : SubscriberRec) (i : Id) :
    (∃ x ∈ l, x.id = i) → ∃ x ∈ l ++ [sub], x.id = i := by
  rintro ⟨x, hx, hi⟩
  exact ⟨x, List.mem_append_left _ hx, hi⟩

/-- A witness by id survives the primary-key-based row replacement of an UPDATE. -/
theorem subscribers_witness_map (l : List SubscriberRec) (sub : SubscriberRec) (i : Id) :
    (∃ x ∈ l, x.id = i) →
      ∃ x ∈ l.map (fun x => if x.id == sub.id then sub else x), x.id = i := by
  rintro ⟨x, hx, hi⟩
  refine ⟨if x.id == sub.id then sub else x, List.mem_map_of_mem _ hx, ?_⟩
  cases hb : x.id == sub.id with
  | true =>
    have hx2 : x.id = sub.id := by simpa using hb
    rw [if_pos rfl, ← hx2]
    exact hi
  | false =>
    rw [if_neg (by simp)]
    exact hi

/-- A witness by id survives appending a row to the message table. -/
theorem messages_witness_append (l : List MessageRec) (m : MessageRec) (i : Id) :
    (∃ x ∈ l, x.id = i) → ∃ x ∈ l ++ [m], x.id = i := by
  rintro ⟨x, hx, hi⟩
  exact ⟨x, List.mem_append_left _ hx, hi⟩

/-- A witness by id survives the primary-key-based message row replacement. -/
theorem messages_witness_map (l : List MessageRec) (m : MessageRec) (i : Id) :
    (∃ x ∈ l, x.id = i) →
      ∃ x ∈ l.map (fun x => if x.id == m.id then m else x), x.id = i := by
  rintro ⟨x, hx, hi⟩
  refine ⟨if x.id == m.id then m else x, List.mem_map_of_mem _ hx, ?_⟩
  cases hb : x.id == m.id with
  | true =>
    have hx2 : x.id = m.id := by simpa using hb
    rw [if_pos rfl, ← hx2]
    exact hi
  | false =>
    rw [if_neg (by simp)]
    exact hi

/-- Unsubscribing preserves referential integrity: the CASCADE on
SubscriberMessage.subscriber removes the delivery records of the deleted row. -/
theorem refIntact_deleteSubscriber (s : Store) (subId : Id) (h : refIntact s) :
    refIntact (deleteSubscriber s subId) := by
  intro sm hsm
  simp only [deleteSubscriber] at hsm
  obtain ⟨hmem, hcond⟩ := List.mem_filter.mp hsm
  simp only [Bool.not_eq_true'] at hcond
  obtain ⟨⟨w, hw, hwid⟩, hmsgPart⟩ := h sm hmem
  have hwin : w ∈ s.subscribers.filter (fun x => !(x.id == subId)) := by
    apply List.mem_filter.mpr
    refine ⟨hw, ?_⟩
    simp only [Bool.not_eq_true']
    rw [hwid]
    exact hcond
  exact ⟨⟨w, hwin, hwid⟩, hmsgPart⟩

/-- Deleting a MailingList preserves referential integrity: the CASCADE chain through
Subscriber and Message removes every delivery record whose references die. -/
theorem refIntact_deleteMailingList (s : Store) (mlId : Id) (h : refIntact s) :
    refIntact (deleteMailingList s mlId) := by
  intro sm hsm
  simp only [deleteMailingList] at hsm
  obtain ⟨hmem, hcond⟩ := List.mem_filter.mp hsm
  simp only [Bool.and_eq_true, Bool.not_eq_true'] at hcond
  obtain ⟨hc1, hc2⟩ := hcond
  obtain ⟨⟨w, hw, hwid⟩, ⟨mm, hmm, hmmid⟩⟩ := h sm hmem
  constructor
  · have hwin : w ∈ s.subscribers.filter (fun x => !(x.mailing_list == mlId)) := by
      apply List.mem_filter.mpr
      refine ⟨hw, ?_⟩
      simp only [Bool.not_eq_true']
      cases hwml : w.mailing_list == mlId with
      | false => rfl
      | true =>
        exfalso
        have hin : sm.subscriber
            ∈ (s.subscribers.filter (fun x => x.mailing_list == mlId)).map (fun x => x.id) :=
          List.mem_map.mpr ⟨w, List.mem_filter.mpr ⟨hw, hwml⟩, hwid⟩
        have hcont : ((s.subscribers.filter (fun x => x.mailing_list == mlId)).map
            (fun x => x.id)).contains sm.subscriber = true :=
          List.elem_eq_true_of_mem hin
        rw [hc1] at hcont
        cases hcont
    exact ⟨w, hwin, hwid⟩
  · have hmin : mm ∈ s.messages.filter (fun m => !(m.mailing_list == mlId)) := by
      apply List.mem_filter.mpr
      refine ⟨hmm, ?_⟩
      simp only [Bool.not_eq_true']
      cases hmml : mm.mailing_list == mlId with
      | false => rfl
      | true =>
        exfalso
        have hin : sm.message
            ∈ (s.messages.filter (fun m => m.mailing_list == mlId)).map (fun m => m.id) :=
          List.mem_map.mpr ⟨mm, List.mem_filter.mpr ⟨hmm, hmml⟩, hmmid⟩
        have hcont : ((s.messages.filter (fun m => m.mailing_list == mlId)).map
            (fun m => m.id)).contains sm.message = true :=
          List.elem_eq_true_of_mem hin
        rw [hc2] at hcont
        cases hcont
    exact ⟨mm, hmin, hmmid⟩

/-- Every operation of the system preserves referential integrity of delivery
records. -/
theorem refIntact_applyOp (s : Store) (op : Op) (h : refIntact s) :
    refIntact (applyOp s op) := by
  cases op with
  | createSubscriber sub =>
    show refIntact (subscriberSave s sub true).1
    rcases subscriberSave_fst s sub true with heq | ⟨q, heq⟩ | heq
    · rw [heq]; exact h
    · rw [heq]
      exact refIntact_of_tables s _ rfl
        (subscribers_witness_append s.subscribers sub) (fun i hi => hi) h
    · rw [heq]
      exact refIntact_of_tables s _ rfl
        (subscribers_witness_map s.subscribers sub) (fun i hi => hi) h
  | confirm subId =>
    show refIntact (confirmSubscription s subId).1
    unfold confirmSubscription
    cases hf : s.subscribers.find? (fun x => x.id == subId) with
    | none => exact h
    | some sub2 =>
      show refIntact (subscriberSave s { sub2 with confirmed := true } false).1
      rcases subscriberSave_fst s { sub2 with confirmed := true } false with
        heq | ⟨q, heq⟩ | heq
      · rw [heq]; exact h
      · rw [heq]
        exact refIntact_of_tables s _ rfl
          (subscribers_witness_append s.subscribers _) (fun i hi => hi) h
      · rw [heq]
        exact refIntact_of_tables s _ rfl
          (subscribers_witness_map s.subscribers _) (fun i hi => hi) h
  | createMessage m =>
    show refIntact (messageSave s m true).1
    rcases messageSave_fst s m true with heq | ⟨q, heq⟩ | heq
    · rw [heq]; exact h
    · rw [heq]
      exact refIntact_of_tables s _ rfl (fun i hi => hi)
        (messages_witness_append s.messages m) h
    · rw [heq]
      exact refIntact_of_tables s _ rfl (fun i hi => hi)
        (messages_witness_map s.messages m) h
  | runBuild messageId =>
    show refIntact (build_subscriber_messages_for_message s messageId).1
    rw [build_fst]
    exact h
  | createDeliveryRecord sm =>
    show refIntact (subscriberMessageCreate s sm).1
    rcases subscriberMessageCreate_fst s sm with heq | ⟨heq, hmsg, hsub⟩
    · rw [heq]; exact h
    · rw [heq]
      intro x hx
      rcases List.mem_append.mp hx with hold | hnew
      · exact h x hold
      · have hx2 : x = sm := List.mem_singleton.mp hnew
        subst hx2
        constructor
        · obtain ⟨w, hw, hww⟩ := List.any_eq_true.mp hsub
          exact ⟨w, hw, by simpa using hww⟩
        · obtain ⟨mm, hmm, hmmw⟩ := List.any_eq_true.mp hmsg
          exact ⟨mm, hmm, by simpa using hmmw⟩
  | runConfirmationJob subId =>
    show refIntact (send_confirmation_email_to_subscriber_task s subId).1
    unfold send_confirmation_email_to_subscriber_task
    cases hf : s.subscribers.find? (fun x => x.id == subId) with
    | none => exact h
    | some sub => exact h
  | runDeliveryJob smId =>
    show refIntact (send_subscriber_message_task s smId).1
    unfold send_subscriber_message_task
    cases hf : s.subscriberMessages.find? (fun x => x.id == smId) with
    | none => exact h
    | some sm =>
      show refIntact ((match s.subscribers.find? (fun x => x.id == sm.subscriber),
            s.messages.find? (fun m => m.id == sm.message) with
        | some sub, some m =>
            ({ s with
                deliveriesSent := s.deliveriesSent ++ [(sub.email, m.subject, m.body)] }, none)
        | _, _ => (s, some PyError.doesNotExist) : Store × Option PyError)).1
      cases hf2 : s.subscribers.find? (fun x => x.id == sm.subscriber) with
      | none =>
        cases hf3 : s.messages.find? (fun m => m.id == sm.message) with
        | none => exact h
        | some mm => exact h
      | some sub =>
        cases hf3 : s.messages.find? (fun m => m.id == sm.message) with
        | none => exact h
        | some mm => exact h
  | unsubscribe subId =>
    exact refIntact_deleteSubscriber s subId h
  | deleteList mlId =>
    exact refIntact_deleteMailingList s mlId h

/-- Any sequence of operations preserves referential integrity. -/
theorem refIntact_applyOps (ops : List Op) :
    ∀ s : Store, refIntact s → refIntact (applyOps s ops) := by
  induction ops with
  | nil => intro s h; exact h
  | cons op rest ih =>
    intro s h
    exact ih (applyOp s op) (refIntact_applyOp s op h)

/-- Claim C9: deleting a MailingList cascades through ownership - no subscriber or
message of the deleted list survives, every surviving delivery record references only
subscribers and messages of other lists, and after any sequence of operations from a
referentially intact store no delivery record references a deleted Subscriber or
Message. -/
theorem C9_cascade_delete_integrity (s : Store) (mlId : Id) (h : refIntact s) :
    (∀ ops : List Op, refIntact (applyOps s ops))
  ∧ (∀ x ∈ (deleteMailingList s mlId).subscribers, x.mailing_list ≠ mlId)
  ∧ (∀ m ∈ (deleteMailingList s mlId).messages, m.mailing_list ≠ mlId)
  ∧ (∀ sm ∈ (deleteMailingList s mlId).subscriberMessages,
      (∀ sub ∈ s.subscribers, sub.id = sm.subscriber → sub.mailing_list ≠ mlId)
    ∧ (∀ m ∈ s.messages, m.id = sm.message → m.mailing_list ≠ mlId)) := by
  refine ⟨fun ops => refIntact_applyOps ops s h, ?_, ?_, ?_⟩
  · intro x hx
    simp only [deleteMailingList] at hx
    obtain ⟨-, hc⟩ := List.mem_filter.mp hx
    simp only [Bool.not_eq_true'] at hc
    intro hcon
    rw [hcon] at hc
    simp at hc
  · intro m hm
    simp only [deleteMailingList] at hm
    obtain ⟨-, hc⟩ := List.mem_filter.mp hm
    simp only [Bool.not_eq_true'] at hc
    intro hcon
    rw [hcon] at hc
    simp at hc
  · intro sm hsm
    simp only [deleteMailingList] at hsm
    obtain ⟨hmem, hcond⟩ := List.mem_filter.mp hsm
    simp only [Bool.and_eq_true, Bool.not_eq_true'] at hcond
    obtain ⟨hc1, hc2⟩ := hcond
    constructor
    · intro sub hsub hid hcon
      have hin : sm.subscriber
          ∈ (s.subscribers.filter (fun x => x.mailing_list == mlId)).map (fun x => x.id) :=
        List.mem_map.mpr
          ⟨sub, List.mem_filter.mpr ⟨hsub, by rw [hcon]; exact beq_self_eq_true mlId⟩, hid⟩
      have hcont : ((s.subscribers.filter (fun x => x.mailing_list == mlId)).map
          (fun x => x.id)).contains sm.subscriber = true :=
        List.elem_eq_true_of_mem hin
      rw [hc1] at hcont
      cases hcont
    · intro mm hmm hid hcon
      have hin : sm.message
          ∈ (s.messages.filter (fun m => m.mailing_list == mlId)).map (fun m => m.id) :=
        List.mem_map.mpr
          ⟨mm, List.mem_filter.mpr ⟨hmm, by rw [hcon]; exact beq_self_eq_true mlId⟩, hid⟩
      have hcont : ((s.messages.filter (fun m => m.mailing_list == mlId)).map
          (fun m => m.id)).contains sm.message = true :=
        List.elem_eq_true_of_mem hin
      rw [hc2] at hcont
      cases hcont

/-- Claim C9 witness at a concrete input. -/
theorem C9_cascade_delete_integrity_witness :
    refIntact c9Store
  ∧ ((∀ ops : List Op, refIntact (applyOps c9Store ops))
    ∧ (∀ x ∈ (deleteMailingList c9Store 1).subscribers, x.mailing_list ≠ 1)
    ∧ (∀ m ∈ (deleteMailingList c9Store 1).messages, m.mailing_list ≠ 1)
    ∧ (∀ sm ∈ (deleteMailingList c9Store 1).subscriberMessages,
        (∀ sub ∈ c9Store.subscribers, sub.id = sm.subscriber → sub.mailing_list ≠ 1)
      ∧ (∀ m ∈ c9Store.messages, m.id = sm.message → m.mailing_list ≠ 1))) :=
  ⟨by decide, C9_cascade_delete_integrity c9Store 1 (by decide)⟩

end Mailinglist
